import Mathlib

/-!
Shallow embedding of the ActingDoll WebSocket control server
(`src/adapter/server/security_config.py`, `src/adapter/server/moc3manager.py`,
`src/adapter/server/handler_cubism_controller.py`) together with proofs about
its specified behaviour.

Python strings are modelled as `List Char`, Python `Optional` values as
`Option`, Python `int` as `Int`, and the decimal literals accepted by
`float(...)` as exact rationals (`ℚ`): every numeral reachable in the
properties below is exactly representable in binary floating point, so no
rounding behaviour is lost by the rational model.
-/

namespace ActingDoll

/-- Whitespace recognised by Python `str.split()` / `str.strip()`
(the ASCII whitespace characters). -/
def isPySpace (c : Char) : Bool :=
  c == ' ' || c == '\t' || c == '\n' || c == '\r' || c == '\x0B' || c == '\x0C'

/-- Python `str.strip()`: remove whitespace from both ends. -/
def pyStrip (l : List Char) : List Char :=
  ((l.dropWhile isPySpace).reverse.dropWhile isPySpace).reverse

/-- Helper for `pySplit`; `acc` is the current token, reversed. -/
def pySplitAux : List Char → List Char → List (List Char)
  | [], acc => if acc.isEmpty then [] else [acc.reverse]
  | c :: cs, acc =>
    if isPySpace c then
      if acc.isEmpty then pySplitAux cs [] else acc.reverse :: pySplitAux cs []
    else
      pySplitAux cs (c :: acc)

/-- Python `str.split()` with no arguments: split on runs of whitespace,
producing no empty tokens. -/
def pySplit (l : List Char) : List (List Char) :=
  pySplitAux l []

/-- Python `str.split(maxsplit=m)` with no separator argument: at most `m`
splits are made; once the budget is exhausted the remainder (leading
whitespace consumed, internal whitespace kept) is the final element. -/
def pySplitMax (m : Nat) (l : List Char) : List (List Char) :=
  let l1 := l.dropWhile isPySpace
  if l1.isEmpty then []
  else
    match m with
    | 0 => [l1]
    | Nat.succ m1 =>
      (l1.takeWhile (fun c => !isPySpace c)) ::
        pySplitMax m1 (l1.dropWhile (fun c => !isPySpace c))

/-- Numeric value of a list of decimal digit characters. -/
def digitsVal (ds : List Char) : Nat :=
  ds.foldl (fun n c => 10 * n + (c.toNat - 48)) 0

/-- Parse a nonempty all-digit string. -/
def parseDigits (ds : List Char) : Option Nat :=
  if ds.isEmpty then none
  else if ds.all Char.isDigit then some (digitsVal ds) else none

/-- Split an optional leading sign; returns (isNegative, rest). -/
def parseSign : List Char → Bool × List Char
  | '-' :: r => (true, r)
  | '+' :: r => (false, r)
  | l => (false, l)

/-- Python `int(str)` on the whitespace-free tokens produced by `split`:
an optional sign followed by decimal digits (digit-group underscores are
not modelled). `none` models a raised `ValueError`. -/
def pyInt (l : List Char) : Option Int :=
  let sr := parseSign l
  match parseDigits sr.2 with
  | none => none
  | some n => some (if sr.1 then -(n : Int) else (n : Int))

/-- Exponent suffix of a Python float literal: the empty suffix, or
`(e|E) [sign] digits`, scaling the mantissa by a power of ten. -/
def applyExp (r : List Char) (q : ℚ) : Option ℚ :=
  let sr := parseSign r
  match parseDigits sr.2 with
  | none => none
  | some k => some (if sr.1 then q / 10 ^ k else q * 10 ^ k)

/-- Dispatch on the exponent marker for `pyFloat`. -/
def parseExpPart (l : List Char) (q : ℚ) : Option ℚ :=
  match l with
  | [] => some q
  | 'e' :: r => applyExp r q
  | 'E' :: r => applyExp r q
  | _ => none

/-- Python `float(str)` restricted to the finite-decimal grammar
`[sign] digits [. digits] [(e|E) [sign] digits]` with at least one mantissa
digit (`inf`, `nan` and underscore grouping are not modelled; none of them
is reachable from the claims). The result is the exact rational value of
the literal; `none` models a raised `ValueError`. -/
def pyFloat (l : List Char) : Option ℚ :=
  let sr := parseSign l
  let ip := sr.2.takeWhile Char.isDigit
  let r1 := sr.2.dropWhile Char.isDigit
  match r1 with
  | '.' :: r2 =>
    let fp := r2.takeWhile Char.isDigit
    let r3 := r2.dropWhile Char.isDigit
    if ip.isEmpty && fp.isEmpty then none
    else
      let mant : ℚ := (digitsVal ip : ℚ) + (digitsVal fp : ℚ) / 10 ^ fp.length
      parseExpPart r3 (if sr.1 then -mant else mant)
  | _ =>
    match parseDigits ip with
    | none => none
    | some n => parseExpPart r1 (if sr.1 then -(n : ℚ) else (n : ℚ))

/-- Python `str.lower()` (ASCII case mapping suffices here). -/
def pyLower (l : List Char) : List Char :=
  l.map Char.toLower

/-- Truthiness of a Python `Optional[str]`: `None` and the empty string are
falsy (`security_config.py` line 110, `if not self.auth_token`). -/
def strTruthy : Option String → Bool
  | none => false
  | some s => !s.isEmpty

/-- The static security policy held by `SecurityConfig`
(`security_config.py` lines 14-52).  The allow-listed directories are
stored already resolved, each as the component list of an absolute path. -/
structure SecurityConfig where
  auth_token : Option String
  require_auth : Bool
  allowed_file_dirs : List (List String)

/-- Result of Python `open(...)` / `read()`: the raw bytes, or the raised
exception class distinguished by `set_lipsync_from_file`. -/
inductive ReadResult where
  | ok (data : List Nat)
  | notFound
  | permissionDenied
  | otherError
deriving DecidableEq

/-- The filesystem facts the server consults through `pathlib` and `open`:
`resolve(strict=False)` (absolute and symlink-free), existence, the symlink
test, `resolve(strict=True)` (`none` models a raised `OSError`), and file
contents.  A resolved path is its list of components. -/
structure FileSystem where
  resolve : String → List String
  pathExists : List String → Bool
  isSymlink : List String → Bool
  resolveStrict : List String → Option (List String)
  readFile : String → ReadResult

/-- `SecurityConfig.is_file_allowed` (`security_config.py` lines 54-93).
`Path.relative_to(d)` succeeds exactly when `d` is a component-wise prefix
of the (absolute, resolved) path, which is the `decide (d <+: rp)` test. -/
def is_file_allowed (cfg : SecurityConfig) (fs : FileSystem) (file_path : String) : Bool :=
  if cfg.allowed_file_dirs.isEmpty then false
  else
    let abs_path := fs.resolve file_path
    if !fs.pathExists abs_path then false
    else
      let real_path := if fs.isSymlink abs_path then fs.resolveStrict abs_path else some abs_path
      match real_path with
      | none => false
      | some rp => cfg.allowed_file_dirs.any (fun d => decide (d <+: rp))

/-- `SecurityConfig.validate_auth_token` (`security_config.py` lines 95-114). -/
def validate_auth_token (cfg : SecurityConfig) (token : Option String) : Bool :=
  if !cfg.require_auth then true
  else if !strTruthy cfg.auth_token then false
  else token == cfg.auth_token

/-- One entry of a `cdi3.json` `Parameters` list; only `Id` is consulted by
the code below, `Name` and `GroupId` travel through unchanged. A missing
JSON key is `none` (Python `dict.get`). -/
structure ParamEntry where
  Id : Option String
  Name : Option String
  GroupId : Option String
deriving DecidableEq

/-- A parsed `cdi3.json` document: its `Parameters` list. -/
structure Cdi3 where
  Parameters : List ParamEntry
deriving DecidableEq

/-- The `Destination` object of a physics output. -/
structure Destination where
  Target : Option String
  Id : Option String
deriving DecidableEq

/-- One element of a physics setting's `Output` list. -/
structure PhysOutput where
  Destination : Destination
deriving DecidableEq

/-- One element of `PhysicsSettings`. -/
structure PhysSetting where
  Output : List PhysOutput
deriving DecidableEq

/-- A parsed `physics3.json` document. -/
structure Physics3 where
  PhysicsSettings : List PhysSetting
deriving DecidableEq

/-- In-memory state of `ModelManager` (`moc3manager.py` lines 15-27): per
model name, the parsed `cdi3.json` and `physics3.json` documents. -/
structure ModelManager where
  cdi3_data : List (String × Cdi3)
  physics3_data : List (String × Physics3)

/-- Python `key in dict` / `dict[key]` over an association list. -/
def lookupA {α : Type} : List (String × α) → String → Option α
  | [], _ => none
  | (k, v) :: rest, key => if k = key then some v else lookupA rest key

/-- `ModelManager.get_cdi3_info` (`moc3manager.py` lines 194-201).  The
Python truthiness test `if target_model and ...` makes the empty model name
behave like `None`. -/
def get_cdi3_info (mm : ModelManager) (model_name : Option String) : Option Cdi3 :=
  match model_name with
  | none => none
  | some n => if n = "" then none else lookupA mm.cdi3_data n

/-- `ModelManager.get_parameters` (`moc3manager.py` lines 203-210).  (An
empty `cdi3` dict is falsy in Python, but it also carries no `Parameters`,
so both roads lead to `[]`.) -/
def get_parameters (mm : ModelManager) (model_name : Option String) : List ParamEntry :=
  match get_cdi3_info mm model_name with
  | some c => c.Parameters
  | none => []

/-- `ModelManager.get_physics3_info` (`moc3manager.py` lines 212-219). -/
def get_physics3_info (mm : ModelManager) (model_name : Option String) : Option Physics3 :=
  match model_name with
  | none => none
  | some n => if n = "" then none else lookupA mm.physics3_data n

/-- Inner loop body of `get_physics_output_ids` (`moc3manager.py` lines
230-236): collect a destination id when the target is `"Parameter"`, the id
is truthy (`if param_id`), and it has not been collected yet. -/
def collectOut (acc : List String) (out : PhysOutput) : List String :=
  if out.Destination.Target = some "Parameter" then
    match out.Destination.Id with
    | some pid => if pid ≠ "" ∧ pid ∉ acc then acc ++ [pid] else acc
    | none => acc
  else acc

/-- `ModelManager.get_physics_output_ids` (`moc3manager.py` lines 221-237). -/
def get_physics_output_ids (mm : ModelManager) (model_name : Option String) : List String :=
  match get_physics3_info mm model_name with
  | none => []
  | some p => p.PhysicsSettings.foldl (fun acc s => s.Output.foldl collectOut acc) []

/-- `ModelManager.get_parameters_exclude_physics` (`moc3manager.py` lines
239-251): keep a parameter when `param.get('Id') not in physics_output_ids`
(a missing id is `None`, which never equals a collected string). -/
def get_parameters_exclude_physics (mm : ModelManager) (model_name : Option String) :
    List ParamEntry :=
  let ids := get_physics_output_ids mm model_name
  (get_parameters mm model_name).filter (fun p =>
    match p.Id with
    | none => true
    | some s => decide (s ∉ ids))

/-- Modelled from the spec wording of `physicsOutputParamIds` (§4.3:
"computed by scanning every physics setting's output destinations whose
target is Parameter"): every destination id whose target is `"Parameter"`,
with no truthiness filtering.  Defined only to compare the code against the
spec's words. -/
def specPhysicsOutputParamIds (mm : ModelManager) (model_name : Option String) : List String :=
  match get_physics3_info mm model_name with
  | none => []
  | some p =>
    p.PhysicsSettings.flatMap (fun s =>
      s.Output.filterMap (fun o =>
        if o.Destination.Target = some "Parameter" then o.Destination.Id else none))

/-- Outcome of the `set_motion` branch: an error acknowledgement with no
push sent, or a `set_motion` push to the target session carrying the given
fields followed by a success acknowledgement. -/
inductive MotionResult where
  | error (msg : String)
  | push (group no : List Char) (priority : Int)
deriving DecidableEq

/-- Argument decomposition of `set_motion` (`handler_cubism_controller.py`
lines 664-668): `args.strip().split(maxsplit=2)` with the defaults `""`,
`""`, `"2"`. -/
def motionParts (args : List Char) : List Char × List Char × List Char :=
  let parts := pySplitMax 2 (pyStrip args)
  (parts.getD 0 [], parts.getD 1 [], parts.getD 2 ['2'])

/-- The `set_motion` directive branch (`handler_cubism_controller.py` lines
663-719). -/
def set_motion (args : List Char) : MotionResult :=
  let p := motionParts args
  if p.1.isEmpty then .error "motion group名が必要です"
  else if p.2.1.isEmpty then .error "motion noが必要です"
  else
    match pyInt p.2.2 with
    | none => .error "priorityは整数である必要があります"
    | some k =>
      if k < 0 ∨ 3 < k then
        .error "priorityは0(None), 1(Idle), 2(Normal), 3(Force)のいずれかである必要があります"
      else .push p.1 p.2.1 k

/-- A Python value as stored in a parameters dict or forwarded as an
`enabled` field: int, float (exact rational), string, or bool. -/
inductive PyVal where
  | int (n : Int)
  | float (q : ℚ)
  | str (s : List Char)
  | bool (b : Bool)
deriving DecidableEq

/-- Value coercion of the `set_parameter` string form
(`handler_cubism_controller.py` lines 858-867): float when the value
contains a dot, else int, falling back to the raw string on `ValueError`. -/
def coerceValue (v : List Char) : PyVal :=
  if '.' ∈ v then
    match pyFloat v with
    | some q => .float q
    | none => .str v
  else
    match pyInt v with
    | some n => .int n
    | none => .str v

/-- Python `dict[key] = value` on an insertion-ordered association list:
replace in place, or append. -/
def dictSet : List (List Char × PyVal) → List Char → PyVal → List (List Char × PyVal)
  | [], k, v => [(k, v)]
  | (k1, v1) :: rest, k, v =>
    if k1 = k then (k1, v) :: rest else (k1, v1) :: dictSet rest k v

/-- Python `tok.split('=', 1)`: key before the first `=`, value after it. -/
def splitEq1 (tok : List Char) : List Char × List Char :=
  (tok.takeWhile (fun c => c != '='), (tok.dropWhile (fun c => c != '=')).drop 1)

/-- Per-token step of the `set_parameter` string parser
(`handler_cubism_controller.py` lines 855-869): a token without `=` is
logged as a warning and contributes nothing. -/
def spStep (m : List (List Char × PyVal)) (tok : List Char) : List (List Char × PyVal) :=
  if '=' ∈ tok then
    let kv := splitEq1 tok
    dictSet m kv.1 (coerceValue kv.2)
  else m

/-- Outcome of the `set_parameter` branch for a string argument. -/
inductive SPResult where
  | error (msg : String)
  | sent (params : List (List Char × PyVal))
deriving DecidableEq

/-- The `set_parameter` directive branch restricted to its
`isinstance(args, str)` arm (`handler_cubism_controller.py` lines 834-918);
`sent` stands for the `set_parameter` push to the target session followed
by the success acknowledgement. -/
def set_parameter_str (args : List Char) : SPResult :=
  if (pyStrip args).isEmpty then
    .error "パラメータを指定してください: ParamName=value ParamName2=value2 ..."
  else
    let parameters := (pySplit args).foldl spStep []
    if parameters.isEmpty then .error "有効なパラメータが指定されていません"
    else .sent parameters

/-- Argument of `set_eye_blink` / `set_breath`: a JSON map or a string. -/
inductive ToggleArgs where
  | map (m : List (List Char × PyVal))
  | strArg (s : List Char)
deriving DecidableEq

/-- Python `args.get("enabled", True)`. -/
def dictGetD : List (List Char × PyVal) → List Char → PyVal → PyVal
  | [], _, d => d
  | (k1, v) :: rest, k, d => if k1 = k then v else dictGetD rest k d

/-- Outcome of a toggle branch: error acknowledgement, or a push whose
`enabled` field carries the given value. -/
inductive ToggleResult where
  | error (msg : String)
  | push (enabled : PyVal)
deriving DecidableEq

/-- Shared body of the two toggle branches (their code is identical up to
message strings): Python `if not args` rejects a falsy argument (empty map
or empty string) first; a dict argument uses `args.get("enabled", True)`;
a string argument uses `"enabled" in str(args).lower()`. -/
def toggle_branch (args : ToggleArgs) : ToggleResult :=
  match args with
  | .map [] => .error "パラメータを指定してください: enabled or disabled"
  | .strArg [] => .error "パラメータを指定してください: enabled or disabled"
  | .map m => .push (dictGetD m "enabled".data (.bool true))
  | .strArg s => .push (.bool (decide ("enabled".data <:+: pyLower s)))

/-- The `set_eye_blink` branch (`handler_cubism_controller.py` lines 497-523). -/
def set_eye_blink (args : ToggleArgs) : ToggleResult :=
  toggle_branch args

/-- The `set_breath` branch (`handler_cubism_controller.py` lines 525-551),
textually the same logic as `set_eye_blink`. -/
def set_breath (args : ToggleArgs) : ToggleResult :=
  toggle_branch args

/-- Mutable registry state of `CubismControllerHandler`
(`handler_cubism_controller.py` lines 29-36): websockets are identified by
numeric handles, client ids are strings. -/
structure ServerState where
  connected : Finset Nat
  authenticated : Finset Nat
  idMap : String → Option Nat
  typeMap : String → Option String

/-- The events that touch the registry state in `handle_client` /
`process_command`.  `stop` (server shutdown, lines 1516-1537, which closes
every transport and clears all sets) is not modelled: the claims below are
scoped to sessions of a running server. -/
inductive Event where
  | register (cid : String) (ws : Nat)
  | authMsg (ws : Nat) (token : Option String)
  | authCmd (cid : String) (token : String)
  | thanks (cid : String) (ctype : String)
  | disconnect (cid : String) (ws : Nat)
deriving DecidableEq

/-- The `client_disconnected` broadcast payload (lines 298-302); only the
`total_clients` field matters here. -/
structure DisconnectBroadcast where
  total_clients : Nat

/-- The `finally` cleanup of `handle_client` (lines 289-302): remove the
session from every registry map, then broadcast `client_disconnected` with
`len(self.connected_clients)` evaluated after the removals. -/
def cleanup (s : ServerState) (cid : String) (ws : Nat) : ServerState × DisconnectBroadcast :=
  let s1 : ServerState :=
    { connected := s.connected.erase ws
      authenticated := s.authenticated.erase ws
      idMap := fun k => if k = cid then none else s.idMap k
      typeMap := fun k => if k = cid then none else s.typeMap k }
  (s1, { total_clients := s1.connected.card })

/-- One registry-affecting step of the server (registration lines 187-188,
auth message branch lines 218-234, `auth` command lines 1185-1215, `thanks`
handshake lines 490-495, cleanup lines 289-302). -/
def step (cfg : SecurityConfig) (s : ServerState) : Event → ServerState
  | .register cid ws =>
    { s with connected := insert ws s.connected
             idMap := fun k => if k = cid then some ws else s.idMap k }
  | .authMsg ws token =>
    if validate_auth_token cfg token then
      { s with authenticated := insert ws s.authenticated }
    else s
  | .authCmd cid token =>
    if validate_auth_token cfg (some token) then
      match s.idMap cid with
      | some ws => { s with authenticated := insert ws s.authenticated }
      | none => s
    else s
  | .thanks cid ctype =>
    { s with typeMap := fun k => if k = cid then some ctype else s.typeMap k }
  | .disconnect cid ws => (cleanup s cid ws).1

/-- Response kind of the `set_lipsync_from_file` branch, one per exit. -/
inductive LipsyncResponse where
  | authError
  | argError
  | accessDenied
  | fileNotFound
  | permissionError
  | readFailed
  | success
deriving DecidableEq

/-- Observable side effects of `set_lipsync_from_file`, in order: reading a
file from disk, and forwarding a `set_lipsync` push to the target session. -/
inductive Effect where
  | fileRead (name : String)
  | sentTo (cid : String)
deriving DecidableEq

/-- The `set_lipsync_from_file` branch (`handler_cubism_controller.py`
lines 747-832).  The base64 payload is abstracted to the raw bytes read,
which preserves the `if not wav_data` emptiness test (base64 of `b""` is
`""`). -/
def set_lipsync_from_file (cfg : SecurityConfig) (fs : FileSystem) (s : ServerState)
    (args : List Char) (client_id source_client_id : String) :
    LipsyncResponse × List Effect :=
  let source_ws := s.idMap source_client_id
  if cfg.require_auth &&
      (match source_ws with
       | none => true
       | some w => decide (w ∉ s.authenticated)) then
    (.authError, [])
  else
    let parts := pySplitMax 1 (pyStrip args)
    let file_name := parts.getD 0 []
    if file_name.isEmpty then (.argError, [])
    else
      let fname := String.mk file_name
      if !is_file_allowed cfg fs fname then (.accessDenied, [])
      else
        match fs.readFile fname with
        | .ok data =>
          if data.isEmpty then (.readFailed, [.fileRead fname])
          else (.success, [.fileRead fname, .sentTo client_id])
        | .notFound => (.fileNotFound, [])
        | .permissionDenied => (.permissionError, [])
        | .otherError => (.readFailed, [])

/-- Concrete filesystem used by witnesses: a single existing regular file
`/home/u/f.wav`, no symlinks, with two bytes of content. -/
def wFS : FileSystem where
  resolve := fun _ => ["home", "u", "f.wav"]
  pathExists := fun p => decide (p = ["home", "u", "f.wav"])
  isSymlink := fun _ => false
  resolveStrict := fun p => some p
  readFile := fun _ => .ok [82, 73]

/-- Concrete security policy used by witnesses: auth required, token
`tok`, allow-list `/home/u`. -/
def wCfg : SecurityConfig where
  auth_token := some "tok"
  require_auth := true
  allowed_file_dirs := [["home", "u"]]

/-- Concrete registry used by witnesses: an unauthenticated session 1 named
`src` and an authenticated session 2 named `tgt`. -/
def wState : ServerState where
  connected := {1, 2}
  authenticated := {2}
  idMap := fun k => if k = "src" then some 1 else if k = "tgt" then some 2 else none
  typeMap := fun _ => none

/-- Model index with one model `m` whose only display parameter has the
empty-string id, which also appears as a `Parameter` physics destination. -/
def cexMM : ModelManager where
  cdi3_data :=
    [("m", { Parameters := [{ Id := some "", Name := none, GroupId := none }] })]
  physics3_data :=
    [("m", { PhysicsSettings :=
      [{ Output := [{ Destination := { Target := some "Parameter", Id := some "" } }] }] })]

/-- Model index with display parameters `a`, `b`, of which `b` is driven by
a physics output. -/
def wMM : ModelManager where
  cdi3_data :=
    [("w", { Parameters :=
      [{ Id := some "a", Name := none, GroupId := none },
       { Id := some "b", Name := none, GroupId := none }] })]
  physics3_data :=
    [("w", { PhysicsSettings :=
      [{ Output := [{ Destination := { Target := some "Parameter", Id := some "b" } }] }] })]

/-- C1: `is_file_allowed` is false on an empty allow-list and false when the
resolved target does not exist; otherwise it succeeds exactly when the
absolute, symlink-resolved real path of the argument is equal to, or a
descendant of, at least one allow-listed directory — containment is decided
on the resolved path, never the literal one.  The hypothesis records the
`pathlib` fact that a path returned by `resolve` contains no symlink. -/
theorem is_file_allowed_characterisation (cfg : SecurityConfig) (fs : FileSystem)
    (p : String) (hsym : ∀ q, fs.isSymlink (fs.resolve q) = false) :
    is_file_allowed cfg fs p = true ↔
      (cfg.allowed_file_dirs ≠ [] ∧ fs.pathExists (fs.resolve p) = true ∧
        ∃ d ∈ cfg.allowed_file_dirs, d <+: fs.resolve p) := by
  by_cases hemp : cfg.allowed_file_dirs.isEmpty
  · simp [is_file_allowed, hemp, List.isEmpty_iff.mp hemp]
  · by_cases hex : fs.pathExists (fs.resolve p)
    · simp [is_file_allowed, hemp, hex, hsym p, List.any_eq_true,
        List.isEmpty_iff.not.mp hemp]
    · simp [is_file_allowed, hemp, hex, hsym p]

/-- C1 witness: an existing file directly under the allow-listed directory
is accepted. -/
theorem is_file_allowed_characterisation_witness :
    is_file_allowed wCfg wFS "/home/u/f.wav" = true := by
  have h := is_file_allowed_characterisation wCfg wFS "/home/u/f.wav" (fun _ => rfl)
  exact h.mpr ⟨by decide, by decide, ⟨["home", "u"], by decide, by decide⟩⟩

/-- C2: `validate_auth_token` is true whenever auth is not required; with
auth required it is false for every token when no (truthy) shared token is
configured, and otherwise true exactly when the token equals the configured
one. -/
theorem validate_auth_token_characterisation (cfg : SecurityConfig) (t : Option String) :
    validate_auth_token cfg t = true ↔
      (cfg.require_auth = false ∨
        (strTruthy cfg.auth_token = true ∧ t = cfg.auth_token)) := by
  by_cases hreq : cfg.require_auth
  · by_cases htok : strTruthy cfg.auth_token
    · simp [validate_auth_token, hreq, htok]
    · simp [validate_auth_token, hreq, htok]
  · simp [validate_auth_token, hreq]

/-- C9: with auth required and the shared token configured as the empty
string, validation fails for every presented token — the empty token is
treated exactly like an unset one (fail-closed), so empty-for-empty never
authenticates. -/
theorem validate_auth_token_empty_configured (dirs : List (List String)) (t : Option String) :
    validate_auth_token
      { auth_token := some "", require_auth := true, allowed_file_dirs := dirs } t = false := rfl

/-- C7: the per-session authenticated flag is monotone under every event
except the session's disconnect: a failed auth attempt never clears it, and
only the disconnect cleanup erases it. -/
theorem authenticated_monotone (cfg : SecurityConfig) (s : ServerState) (e : Event)
    (ws : Nat) (hnd : ∀ cid w, e ≠ .disconnect cid w) (hmem : ws ∈ s.authenticated) :
    ws ∈ (step cfg s e).authenticated
    ∧ (∀ w tok, validate_auth_token cfg tok = false →
        (step cfg s (.authMsg w tok)).authenticated = s.authenticated)
    ∧ (∀ cid w, (step cfg s (.disconnect cid w)).authenticated = s.authenticated.erase w) := by
  refine ⟨?_, ?_, ?_⟩
  · cases e with
    | register cid w => exact hmem
    | authMsg w token =>
      by_cases hv : validate_auth_token cfg token
      · simp only [step, hv, if_true]
        exact Finset.mem_insert_of_mem hmem
      · simp only [step, hv]
        simpa using hmem
    | authCmd cid token =>
      by_cases hv : validate_auth_token cfg (some token)
      · cases hmap : s.idMap cid with
        | some w =>
          simp only [step, hv, hmap, if_true]
          exact Finset.mem_insert_of_mem hmem
        | none => simpa [step, hv, hmap] using hmem
      · simpa [step, hv] using hmem
    | thanks cid ctype => exact hmem
    | disconnect cid w => exact absurd rfl (hnd cid w)
  · intro w tok hv
    simp [step, hv]
  · intro cid w
    simp [step, cleanup]

/-- C7 witness: a failed auth attempt by session 1 leaves session 2's flag
in place. -/
theorem authenticated_monotone_witness :
    2 ∈ (step wCfg wState (.authMsg 1 (some "bad"))).authenticated := by
  have h := authenticated_monotone wCfg wState (.authMsg 1 (some "bad")) 2
    (fun _ _ hc => Event.noConfusion hc) (by decide)
  exact h.1

/-- C8: the disconnect cleanup first removes the session from the
connection set and id map, and the `client_disconnected` broadcast carries
`total_clients` equal to the registry size immediately after that removal
(so it no longer counts the departed session). -/
theorem cleanup_broadcast_count (s : ServerState) (cid : String) (ws : Nat)
    (hin : ws ∈ s.connected) :
    (cleanup s cid ws).2.total_clients = (cleanup s cid ws).1.connected.card
    ∧ ws ∉ (cleanup s cid ws).1.connected
    ∧ (cleanup s cid ws).1.idMap cid = none
    ∧ (cleanup s cid ws).2.total_clients = s.connected.card - 1 := by
  refine ⟨rfl, Finset.not_mem_erase _ _, by simp [cleanup], ?_⟩
  simp [cleanup, Finset.card_erase_of_mem hin]

/-- C8 witness: disconnecting session 1 of the two-session registry
broadcasts a count of 1. -/
theorem cleanup_broadcast_count_witness :
    (cleanup wState "src" 1).2.total_clients = 1 := by
  have h := cleanup_broadcast_count wState "src" 1 (by decide)
  exact h.2.2.2.trans (by decide)

/-- C3 counterexample: the router forwards a `set_motion` push whose `no`
field is the non-numeric string `x` — numericity of `no` is never
validated, refuting "requires a numeric no". -/
theorem set_motion_forwards_nonnumeric_no :
    set_motion "g x".data = .push "g".data "x".data 2 ∧ pyInt "x".data = none := by
  constructor <;> decide

/-- C3 (amended): the router requires a non-empty `group` and a non-empty
`no` (whose numeric form is not validated), and an optional `priority`; a
non-integer or out-of-range priority yields an error with no push, and
otherwise the push carries exactly the parsed fields with the priority in
`[0,3]`. -/
theorem set_motion_validation (args group no pr : List Char)
    (hp : motionParts args = (group, no, pr)) :
    (∀ g n k, set_motion args = .push g n k →
      g = group ∧ n = no ∧ pyInt pr = some k ∧ 0 ≤ k ∧ k ≤ 3 ∧ group ≠ [] ∧ no ≠ [])
    ∧ (pyInt pr = none → ∃ m, set_motion args = .error m)
    ∧ (∀ k, pyInt pr = some k → (k < 0 ∨ 3 < k) → ∃ m, set_motion args = .error m)
    ∧ (group ≠ [] → no ≠ [] → ∀ k, pyInt pr = some k → 0 ≤ k → k ≤ 3 →
        set_motion args = .push group no k) := by
  simp only [set_motion, hp]
  by_cases hg : group.isEmpty
  · have hg1 : group = [] := List.isEmpty_iff.mp hg
    simp [hg, hg1]
  · have hg1 : group ≠ [] := by simpa [List.isEmpty_iff] using hg
    by_cases hn : no.isEmpty
    · have hn1 : no = [] := List.isEmpty_iff.mp hn
      simp [hg, hn, hn1]
    · have hn1 : no ≠ [] := by simpa [List.isEmpty_iff] using hn
      cases hpr : pyInt pr with
      | none => simp [hg, hn, hpr]
      | some k0 =>
        by_cases hr : k0 < 0 ∨ 3 < k0
        · simp only [hg, hn, Bool.false_eq_true, if_false, if_pos hr]
          refine ⟨by simp, by simp, ?_, ?_⟩
          · intro k hk hrange
            exact ⟨_, rfl⟩
          · intro _ _ k hk h0 h3
            injection hk with hk0
            exfalso
            omega
        · simp only [hg, hn, Bool.false_eq_true, if_false, if_neg hr]
          push_neg at hr
          refine ⟨?_, by simp, ?_, ?_⟩
          · intro g n k hk
            cases hk
            exact ⟨rfl, rfl, rfl, hr.1, hr.2, hg1, hn1⟩
          · intro k hk hrange
            injection hk with hk0
            exfalso
            omega
          · intro _ _ k hk _ _
            injection hk with hk0
            rw [hk0]

/-- C3 witness: a well-formed `set_motion` directive with default priority
is pushed. -/
theorem set_motion_validation_witness :
    set_motion "g 1".data = .push "g".data "1".data 2 := by
  have h := set_motion_validation "g 1".data "g".data "1".data ['2'] (by decide)
  exact h.2.2.2 (by decide) (by decide) 2 (by decide) (by decide) (by decide)

/-- C5: while auth is required, `set_lipsync_from_file` checks the
*caller's* session (the directive's source): an unknown or unauthenticated
caller gets an authorization error with no file access and no forwarding,
while an authenticated caller is never answered with that error —
independently of the target session's state. -/
theorem lipsync_requires_caller_auth (cfg : SecurityConfig) (fs : FileSystem)
    (s : ServerState) (args : List Char) (cid src : String)
    (hreq : cfg.require_auth = true) :
    ((s.idMap src = none ∨ ∃ w, s.idMap src = some w ∧ w ∉ s.authenticated) →
      set_lipsync_from_file cfg fs s args cid src = (.authError, []))
    ∧ (∀ w, s.idMap src = some w → w ∈ s.authenticated →
        (set_lipsync_from_file cfg fs s args cid src).1 ≠ .authError) := by
  constructor
  · rintro (hmap | ⟨w, hmap, hw⟩)
    · simp [set_lipsync_from_file, hreq, hmap]
    · simp [set_lipsync_from_file, hreq, hmap, hw]
  · intro w hmap hw
    simp only [set_lipsync_from_file, hmap]
    rw [if_neg (by simp [hw])]
    repeat' split
    all_goals simp

/-- C5 witness: an unregistered caller id is rejected with an authorization
error and an empty effect list, even though the target session is
authenticated. -/
theorem lipsync_requires_caller_auth_witness :
    set_lipsync_from_file wCfg wFS wState "f.wav".data "tgt" "nobody" = (.authError, []) := by
  have h := lipsync_requires_caller_auth wCfg wFS wState "f.wav".data "tgt" "nobody" rfl
  exact h.1 (Or.inl (by decide))

/-- C6 counterexample: a directive whose only token lacks `=` does fail the
whole command (no valid parameter remains), refuting "dropped ... without
failing the command" read as universal. -/
theorem set_parameter_all_malformed_fails :
    set_parameter_str "Foo".data = .error "有効なパラメータが指定されていません" := by decide

/-- C6 (amended): values are coerced float-if-dotted / else int / else kept
as strings, and a token lacking `=` contributes nothing to the parse
(without aborting it), the command failing only when no valid parameter
remains; in particular the example directive parses to
`{ParamAngleX: int 30, ParamAngleY: float -10.5}` with `Foo` dropped and
the command succeeding. -/
theorem set_parameter_parse :
    set_parameter_str "ParamAngleX=30 ParamAngleY=-10.5 Foo".data =
      .sent [("ParamAngleX".data, .int 30), ("ParamAngleY".data, .float (-21/2))]
    ∧ ∀ (m : List (List Char × PyVal)) (tok : List Char), '=' ∉ tok → spStep m tok = m := by
  constructor
  · have hf : pyFloat "-10.5".data =
        some (-(((10 : Nat) : ℚ) + ((5 : Nat) : ℚ) / 10 ^ (1 : Nat))) := rfl
    have hq : (-(((10 : Nat) : ℚ) + ((5 : Nat) : ℚ) / 10 ^ (1 : Nat))) = (-21/2 : ℚ) := by
      norm_num
    have hv : coerceValue "-10.5".data = .float (-21/2) := by
      unfold coerceValue
      rw [if_pos (by decide), hf, hq]
    have h2 : spStep [("ParamAngleX".data, .int 30)] "ParamAngleY=-10.5".data =
        [("ParamAngleX".data, .int 30), ("ParamAngleY".data, .float (-21/2))] := by
      unfold spStep
      rw [if_pos (by decide)]
      show dictSet [("ParamAngleX".data, .int 30)] (splitEq1 "ParamAngleY=-10.5".data).1
        (coerceValue (splitEq1 "ParamAngleY=-10.5".data).2) = _
      have hk1 : (splitEq1 "ParamAngleY=-10.5".data).1 = "ParamAngleY".data := by decide
      have hk2 : (splitEq1 "ParamAngleY=-10.5".data).2 = "-10.5".data := by decide
      rw [hk1, hk2, hv]
      rfl
    have hfold : (pySplit "ParamAngleX=30 ParamAngleY=-10.5 Foo".data).foldl spStep [] =
        [("ParamAngleX".data, .int 30), ("ParamAngleY".data, .float (-21/2))] := by
      have hsplit : pySplit "ParamAngleX=30 ParamAngleY=-10.5 Foo".data =
          ["ParamAngleX=30".data, "ParamAngleY=-10.5".data, "Foo".data] := by decide
      rw [hsplit]
      simp only [List.foldl_cons, List.foldl_nil]
      have h1 : spStep [] "ParamAngleX=30".data = [("ParamAngleX".data, .int 30)] := by decide
      rw [h1, h2]
      unfold spStep
      rw [if_neg (by decide)]
    unfold set_parameter_str
    rw [if_neg (by decide)]
    show (if ((pySplit "ParamAngleX=30 ParamAngleY=-10.5 Foo".data).foldl spStep
      []).isEmpty = true then _ else _) = _
    rw [hfold]
    rfl
  · intro m tok h
    simp [spStep, h]

/-- C6 witness: the malformed token `Foo` leaves the parameter dict
untouched. -/
theorem set_parameter_parse_witness :
    spStep [] "Foo".data = [] :=
  set_parameter_parse.2 [] "Foo".data (by decide)

/-- `args.get("enabled", True)` returns the default when no entry carries
the key. -/
theorem dictGetD_not_mem (m : List (List Char × PyVal)) (k : List Char) (d : PyVal)
    (h : k ∉ m.map Prod.fst) : dictGetD m k d = d := by
  induction m with
  | nil => rfl
  | cons p rest ih =>
    obtain ⟨k1, v⟩ := p
    simp only [List.map_cons, List.mem_cons] at h
    push_neg at h
    simp [dictGetD, Ne.symm h.1, ih h.2]

/-- C10 counterexample: an empty map argument is falsy in Python, so the
branch answers with an error and forwards nothing — the `enabled` flag is
not defaulted to true for it. -/
theorem toggle_empty_map_error :
    set_eye_blink (.map []) = .error "パラメータを指定してください: enabled or disabled" := rfl

/-- C10 (amended): for a non-empty string argument, the `enabled` flag
pushed by `set_eye_blink` / `set_breath` is true exactly when the lowercased
argument contains the substring `enabled` (so `disabled` disables only
because it lacks that substring); for a non-empty map argument with no
`enabled` key, the flag defaults to true. -/
theorem toggle_enabled_semantics :
    (∀ s : List Char, s ≠ [] → ∃ b : Bool,
      set_eye_blink (.strArg s) = .push (.bool b)
      ∧ set_breath (.strArg s) = .push (.bool b)
      ∧ (b = true ↔ "enabled".data <:+: pyLower s))
    ∧ (∀ m : List (List Char × PyVal), m ≠ [] → "enabled".data ∉ m.map Prod.fst →
      set_eye_blink (.map m) = .push (.bool true)
      ∧ set_breath (.map m) = .push (.bool true))
    ∧ set_eye_blink (.strArg "disabled".data) = .push (.bool false)
    ∧ set_breath (.strArg "disenabledx".data) = .push (.bool true) := by
  refine ⟨?_, ?_, by decide, by decide⟩
  · intro s hs
    refine ⟨decide ("enabled".data <:+: pyLower s), ?_, ?_, decide_eq_true_iff⟩ <;>
      cases s with
      | nil => exact absurd rfl hs
      | cons c cs => rfl
  · intro m hm hk
    have hd : dictGetD m "enabled".data (.bool true) = .bool true :=
      dictGetD_not_mem m "enabled".data (.bool true) hk
    cases m with
    | nil => exact absurd rfl hm
    | cons p rest =>
      constructor
      · show ToggleResult.push (dictGetD (p :: rest) "enabled".data (.bool true)) = _
        rw [hd]
      · show ToggleResult.push (dictGetD (p :: rest) "enabled".data (.bool true)) = _
        rw [hd]

/-- C10 witness: the string `on` does not contain `enabled`, so the branch
pushes a false flag. -/
theorem toggle_enabled_semantics_witness :
    set_eye_blink (.strArg "on".data) = .push (.bool false) := by
  obtain ⟨b, h1, h2, h3⟩ := toggle_enabled_semantics.1 "on".data (by decide)
  cases b with
  | false => exact h1
  | true => exact absurd (h3.mp rfl) (by decide)

/-- Membership in one `collectOut` step: an id is collected exactly when it
was already present, or is the nonempty id of a `Parameter` destination of
this output. -/
theorem mem_collectOut (acc : List String) (out : PhysOutput) (s : String) :
    s ∈ collectOut acc out ↔
      s ∈ acc ∨ (s ≠ "" ∧ out.Destination.Target = some "Parameter"
        ∧ out.Destination.Id = some s) := by
  constructor
  · intro h
    unfold collectOut at h
    split at h
    · rename_i ht
      split at h
      · rename_i pid hid
        split at h
        · rename_i hcond
          rcases List.mem_append.mp h with h1 | h1
          · exact Or.inl h1
          · have hs := List.mem_singleton.mp h1
            subst hs
            exact Or.inr ⟨hcond.1, ht, hid⟩
        · exact Or.inl h
      · exact Or.inl h
    · exact Or.inl h
  · rintro (h | ⟨h1, h2, h3⟩)
    · unfold collectOut
      split
      · split
        · split
          · exact List.mem_append_left _ h
          · exact h
        · exact h
      · exact h
    · unfold collectOut
      rw [if_pos h2]
      simp only [h3]
      by_cases hq : s ≠ "" ∧ s ∉ acc
      · rw [if_pos hq]
        exact List.mem_append_right _ (List.mem_singleton.mpr rfl)
      · rw [if_neg hq]
        rw [not_and_or, not_not] at hq
        rcases hq with hq | hq
        · exact absurd hq h1
        · exact not_not.mp hq

/-- Membership after folding `collectOut` over an output list. -/
theorem mem_foldl_collectOut (outs : List PhysOutput) (acc : List String) (s : String) :
    s ∈ outs.foldl collectOut acc ↔
      s ∈ acc ∨ ∃ o ∈ outs, s ≠ "" ∧ o.Destination.Target = some "Parameter"
        ∧ o.Destination.Id = some s := by
  induction outs generalizing acc with
  | nil => simp
  | cons o rest ih =>
    simp only [List.foldl_cons, ih, mem_collectOut, List.mem_cons]
    aesop

/-- Membership after folding over every physics setting. -/
theorem mem_foldl_settings (settings : List PhysSetting) (acc : List String) (s : String) :
    s ∈ settings.foldl (fun a st => st.Output.foldl collectOut a) acc ↔
      s ∈ acc ∨ ∃ st ∈ settings, ∃ o ∈ st.Output, s ≠ "" ∧
        o.Destination.Target = some "Parameter" ∧ o.Destination.Id = some s := by
  induction settings generalizing acc with
  | nil => simp
  | cons st rest ih =>
    simp only [List.foldl_cons, ih, mem_foldl_collectOut, List.mem_cons]
    aesop

/-- The ids collected by the code are exactly the *nonempty* ids among the
spec's `physicsOutputParamIds`. -/
theorem mem_get_physics_output_ids (mm : ModelManager) (name : Option String) (s : String) :
    s ∈ get_physics_output_ids mm name ↔
      s ≠ "" ∧ s ∈ specPhysicsOutputParamIds mm name := by
  unfold get_physics_output_ids specPhysicsOutputParamIds
  cases get_physics3_info mm name with
  | none => simp
  | some p =>
    simp only [mem_foldl_settings, List.not_mem_nil, false_or, List.mem_flatMap,
      List.mem_filterMap]
    constructor
    · rintro ⟨st, hst, o, ho, hne, htgt, hid⟩
      exact ⟨hne, st, hst, o, ho, by rw [if_pos htgt, hid]⟩
    · rintro ⟨hne, st, hst, o, ho, hif⟩
      by_cases htgt : o.Destination.Target = some "Parameter"
      · rw [if_pos htgt] at hif
        exact ⟨st, hst, o, ho, hne, htgt, hif⟩
      · rw [if_neg htgt] at hif
        exact absurd hif (by simp)

/-- C4 counterexample: in `cexMM` the empty id appears as a `Parameter`
physics destination, yet the parameter carrying it is still returned by the
settable-parameters query — truthiness filtering in
`get_physics_output_ids` lets the empty id through. -/
theorem settable_params_keep_empty_physics_id :
    get_parameters_exclude_physics cexMM (some "m") =
      [{ Id := some "", Name := none, GroupId := none }]
    ∧ "" ∈ specPhysicsOutputParamIds cexMM (some "m") := by
  constructor <;> decide

/-- C4 (amended): the settable-parameters query equals the display-metadata
parameter list filtered to exclude exactly the *nonempty* ids appearing as
`Parameter` destinations in the physics-settings outputs; in particular no
returned parameter has a nonempty id that appears there. -/
theorem settable_excludes_truthy_physics_ids (mm : ModelManager) (name : Option String) :
    (∀ p ∈ get_parameters_exclude_physics mm name, ∀ s, p.Id = some s → s ≠ "" →
      s ∉ specPhysicsOutputParamIds mm name)
    ∧ get_parameters_exclude_physics mm name =
      (get_parameters mm name).filter (fun p =>
        match p.Id with
        | none => true
        | some s => decide (¬ (s ≠ "" ∧ s ∈ specPhysicsOutputParamIds mm name))) := by
  constructor
  · intro q hq s hid hne hspec
    unfold get_parameters_exclude_physics at hq
    rw [List.mem_filter] at hq
    have hq2 := hq.2
    rw [hid] at hq2
    have hnot := of_decide_eq_true hq2
    rw [mem_get_physics_output_ids] at hnot
    exact hnot ⟨hne, hspec⟩
  · unfold get_parameters_exclude_physics
    refine List.filter_congr ?_
    intro p _
    cases hid : p.Id with
    | none => rfl
    | some s =>
      simp only [decide_eq_decide]
      rw [not_and_or, not_not]
      rw [mem_get_physics_output_ids]
      tauto

/-- C4 witness: in `wMM`, the returned parameter `a` indeed appears in no
physics output destination. -/
theorem settable_excludes_truthy_physics_ids_witness :
    "a" ∉ specPhysicsOutputParamIds wMM (some "w") := by
  have h := (settable_excludes_truthy_physics_ids wMM (some "w")).1
  exact h { Id := some "a", Name := none, GroupId := none } (by decide) "a" rfl (by decide)

end ActingDoll
